import Mathlib

/-!
Verification of the study-mode reading interface (App root orchestrator,
TableOfContents, ToolPanel) against its specification.

The TypeScript source is shallowly embedded: React state is modelled as
explicit record types, each event handler as a pure function from state
(plus the event's inputs) to state, and the asynchronous send-message
round trip as two functions (the synchronous prefix up to the `await`,
and the completion continuation).  JavaScript numbers that matter are
integers or rationals; `Math.max(...[])`'s `-Infinity` is modelled by an
explicit `JsNumber` sum type.
-/

namespace StudyMode

/-- A table-of-contents section (interface `Section` in App.tsx /
TableOfContents.tsx): opaque id, title, page anchor. -/
structure Section where
  section_id : String
  title : String
  page : Int
deriving DecidableEq, Repr

/-- A chapter (interface `Chapter`): the `sections` field is
`Section[] | null` in the source, hence `Option (List Section)`;
`some []` models an empty (but non-null, hence truthy) array. -/
structure Chapter where
  chapter_id : String
  chapter_number : String
  title : String
  sections : Option (List Section)
deriving DecidableEq, Repr

/-- The table of contents (interface `TOC`). -/
structure TOC where
  book_id : String
  chapters : List Chapter
deriving DecidableEq, Repr

/-- Result of `Math.max(...xs)` over a possibly empty argument list:
`-Infinity` when the list is empty, otherwise an integer. -/
inductive JsNumber where
  | negInfinity : JsNumber
  | int : Int → JsNumber
deriving DecidableEq, Repr

/-- `Math.max(...l)` for a list of integers: `-Infinity` on the empty
list, else the maximum element. -/
def jsMathMax : List Int → JsNumber
  | [] => JsNumber.negInfinity
  | x :: xs =>
    match jsMathMax xs with
    | JsNumber.negInfinity => JsNumber.int x
    | JsNumber.int m => JsNumber.int (max x m)

/-- The per-chapter contribution inside `totalPages`'s `flatMap`
(App.tsx line 91-92): `chapter.sections ? chapter.sections.map(s => s.page)
: [1]`.  A `null` sections field contributes `[1]`; a present (even
empty) array contributes its pages. -/
def chapterPages (c : Chapter) : List Int :=
  match c.sections with
  | some secs => secs.map (fun s => s.page)
  | none => [1]

/-- All page numbers collected by `studyData.toc.chapters.flatMap(...)`. -/
def tocPages (t : TOC) : List Int :=
  (t.chapters.map chapterPages).flatten

/-- `totalPages` (App.tsx lines 90-93): `studyData?.toc ?
Math.max(...flatMap...) : 100`.  The fallback 100 applies exactly when
the `toc` field is absent. -/
def totalPages : Option TOC → JsNumber
  | some t => jsMathMax (tocPages t)
  | none => JsNumber.int 100

/-- `hasTOC` (App.tsx line 96): `studyData?.toc?.chapters &&
studyData.toc.chapters.length > 0`. -/
def hasTOC : Option TOC → Bool
  | some t => decide (t.chapters.length > 0)
  | none => false

/-- `tocWidth` (App.tsx line 99): `!hasTOC || isPDFHidden ? 0 :
(isTOCCollapsed ? 48 : 240)`. -/
def tocWidth (toc : Option TOC) (isPDFHidden : Bool) (isTOCCollapsed : Bool) : Int :=
  if !hasTOC toc || isPDFHidden then 0 else if isTOCCollapsed then 48 else 240

/-- Whether the contents pane is rendered at all: in both the mobile and
desktop branches of App.tsx's render tree the `TableOfContents` element
is guarded by `hasTOC && !isPDFHidden`. -/
def tocPaneRendered (toc : Option TOC) (isPDFHidden : Bool) : Bool :=
  hasTOC toc && !isPDFHidden

/-- `handlePageChange` (App.tsx lines 315-319) restricted to the position
state it mutates: `setCurrentPage(page)` — the new page is stored as
given, with no validation or clamping. -/
def handlePageChange (_currentPage : Int) (page : Int) : Int :=
  page

/-- A sequence of `handlePageChange` calls folded over the position. -/
def runNavigations (init : Int) (calls : List Int) : Int :=
  calls.foldl handlePageChange init

/-- Integer clamp into `[lo, hi]` as `Math.max(lo, Math.min(hi, x))`. -/
def clamp (lo hi x : Int) : Int :=
  max lo (min hi x)

/-- Rational clamp, for the pixel arithmetic of the resize handler
(`containerWidth * 0.6` is exact in ℚ). -/
def clampQ (lo hi x : ℚ) : ℚ :=
  max lo (min hi x)

/-- `handleMouseMove` (App.tsx lines 270-284) restricted to the width it
computes, in the non-early-return case (resizing active, container
present, not mobile): `newRightPanelWidth = containerWidth - mouseX - 4`;
`minWidth = 280`; `maxWidth = isPDFHidden ? containerWidth - 100 :
containerWidth * 0.6`; result `Math.max(minWidth, Math.min(maxWidth,
newRightPanelWidth))`. -/
def handleMouseMove (isPDFHidden : Bool) (containerWidth mouseX : ℚ) : ℚ :=
  let newRightPanelWidth : ℚ := containerWidth - mouseX - 4
  let minWidth : ℚ := 280
  let maxWidth : ℚ := if isPDFHidden then containerWidth - 100 else containerWidth * (6/10)
  max minWidth (min maxWidth newRightPanelWidth)

/-- The `maxWidth` bound of `handleMouseMove`, named for the theorems. -/
def resizeMaxWidth (isPDFHidden : Bool) (containerWidth : ℚ) : ℚ :=
  if isPDFHidden then containerWidth - 100 else containerWidth * (6/10)

/-! ## TableOfContents item logic (TableOfContents.tsx lines 33-136) -/

/-- `shouldShowSections` / `hasExpandableSections` (TableOfContents.tsx
lines 41-44): `chapter.sections && chapter.sections.length > 0 &&
!(chapter.sections.length === 1 && chapter.sections[0].title ===
chapter.title)`. -/
def shouldShowSections (c : Chapter) : Bool :=
  match c.sections with
  | some secs =>
    decide (secs.length > 0) &&
      !(decide (secs.length = 1) &&
        (secs.head?.map (fun s => s.title) == some c.title))
  | none => false

/-- A chapter entry renders an expand arrow exactly when
`hasExpandableSections` holds (the `CollapsibleTrigger` branch of the
JSX, line 80). -/
def hasExpandArrow (c : Chapter) : Bool :=
  shouldShowSections c

/-- A chapter entry is directly clickable exactly when it has no
expandable sections: `onClick={!hasExpandableSections ?
handleChapterClick : undefined}` (line 77). -/
def directlyClickable (c : Chapter) : Bool :=
  !shouldShowSections c

/-- `chapterPage` (lines 47-48): `chapter.sections &&
chapter.sections.length > 0 ? chapter.sections[0].page : null`. -/
def chapterPage (c : Chapter) : Option Int :=
  match c.sections with
  | some (s :: _) => some s.page
  | _ => none

/-- A navigation request emitted through `onPageSelect(page, sectionId?,
chapterId?)`. -/
structure NavEvent where
  page : Int
  sectionId : Option String
  chapterId : Option String
deriving DecidableEq, Repr

/-- `handleChapterClick` (lines 52-56): fires `onPageSelect(chapterPage,
chapter.sections?.[0]?.section_id, chapter.chapter_id)` only when
`chapterPage` is truthy — `null` and `0` both fail the `if (chapterPage)`
guard, and then no navigation is emitted. -/
def handleChapterClick (c : Chapter) : Option NavEvent :=
  match chapterPage c with
  | some p =>
    if p ≠ 0 then
      some ⟨p, (c.sections.bind (fun secs => secs.head?)).map (fun s => s.section_id),
            some c.chapter_id⟩
    else none
  | none => none

/-- `handleSectionClick` (lines 58-60): `onPageSelect(section.page,
section.section_id, chapter.chapter_id)`, unconditionally. -/
def handleSectionClick (c : Chapter) (s : Section) : NavEvent :=
  ⟨s.page, some s.section_id, some c.chapter_id⟩

/-! ## ToolPanel state and send-message protocol (ToolPanel.tsx) -/

/-- A highlighted-text snapshot `{ text, context }`. -/
structure HighlightedText where
  text : String
  context : String
deriving DecidableEq, Repr

/-- Message author: `'user' | 'ai'`. -/
inductive Sender where
  | user : Sender
  | ai : Sender
deriving DecidableEq, Repr

/-- Carrier for the `string | string[] | any[]` tool payload.  The send
and open handlers never inspect the payload — they only move it — so the
embedding carries either a string or a list of (serialised) items. -/
inductive ToolContent where
  | str : String → ToolContent
  | items : List String → ToolContent
deriving DecidableEq, Repr

/-- The `toolResponse` reference stored on a message (and the shape of
`activeOverlay`): `{ type, content, toolResponseId? }`.  `type` is
`Option String` because it is assigned from `response.tool_type`, which
is `string | null`. -/
structure ToolResponseRef where
  type : Option String
  content : ToolContent
  toolResponseId : Option String
deriving DecidableEq, Repr

/-- A chat message (interface `Message` in ToolPanel.tsx). -/
structure Message where
  id : String
  content : String
  sender : Sender
  model : Option String
  toolUsed : Option String
  toolResponse : Option ToolResponseRef
  highlightedText : Option HighlightedText
deriving DecidableEq, Repr

/-- The ToolPanel state touched by the send-message protocol and the
overlay: `messages`, `inputValue`, `isLoading` (the pending flag),
`contextText`, `activeOverlay`. -/
structure PanelState where
  messages : List Message
  inputValue : String
  isLoading : Bool
  contextText : Option HighlightedText
  activeOverlay : Option ToolResponseRef
deriving DecidableEq, Repr

/-- The mock send response shape consumed by `handleSendMessage`'s
completion (fields of `sendChatMessage`'s `mockResponse` that the
completion reads). -/
structure Response where
  content : String
  tool_type : Option String
  tool_response_id : Option String
  tool_response : Option ToolContent
deriving DecidableEq, Repr

/-- JavaScript `a || b` for an optional string `a`: `undefined` and the
empty string are both falsy. -/
def jsOrString (a : Option String) (b : String) : String :=
  match a with
  | some s => if s = "" then b else s
  | none => b

/-- JavaScript `a || b` for two optional objects: an object is always
truthy, so the result is `a` unless `a` is `undefined`. -/
def jsOrOption (a b : Option HighlightedText) : Option HighlightedText :=
  match a with
  | some h => some h
  | none => b

/-- JavaScript `String.prototype.trim`: strip whitespace from both ends
(defined structurally over the character list so it evaluates by
kernel reduction). -/
def jsTrim (s : String) : String :=
  ⟨((s.data.dropWhile Char.isWhitespace).reverse.dropWhile Char.isWhitespace).reverse⟩

/-- The synchronous prefix of `handleSendMessage` (ToolPanel.tsx lines
728-752), up to the `await`: resolve `content = messageContent ||
inputValue`; bail out when `!content.trim() || isLoading`; otherwise
append the user message, clear the input unless `autoGenerated`, clear
`contextText` unless an override was passed, and set `isLoading`.
Returns the new state and whether a request was issued.  `msgId` stands
for `Date.now().toString()`. -/
def handleSendMessageStart (st : PanelState) (messageContent : Option String)
    (autoGenerated : Bool) (highlightedTextOverride : Option HighlightedText)
    (msgId : String) : PanelState × Bool :=
  let content := jsOrString messageContent st.inputValue
  if jsTrim content = "" ∨ st.isLoading = true then (st, false)
  else
    let currentContextText := jsOrOption highlightedTextOverride st.contextText
    let userMessage : Message :=
      ⟨msgId, content, Sender.user, none, none, none, currentContextText⟩
    ({ st with
        messages := st.messages ++ [userMessage],
        inputValue := if !autoGenerated then "" else st.inputValue,
        contextText := if highlightedTextOverride.isNone then none else st.contextText,
        isLoading := true }, true)

/-- The success continuation of `handleSendMessage` (lines 754-778):
build the assistant message from the response (storing a tool reference
when `response.tool_response` is present), append it, and clear the
pending flag (`finally`).  `aiId` stands for
`(Date.now() + 1).toString()`; `selectedModel` is the panel's model
state.  Note: `setActiveOverlay` is never called here. -/
def handleSendMessageComplete (st : PanelState) (resp : Response)
    (aiId : String) (selectedModel : String) : PanelState :=
  let aiMessage : Message :=
    ⟨aiId, resp.content, Sender.ai, some selectedModel, resp.tool_type,
      resp.tool_response.map (fun c => ⟨resp.tool_type, c, resp.tool_response_id⟩),
      none⟩
  { st with messages := st.messages ++ [aiMessage], isLoading := false }

/-- The failure continuation of `handleSendMessage` (`catch` + `finally`,
lines 774-778): a toast is shown and the pending flag clears; the
message list is not touched. -/
def handleSendMessageFail (st : PanelState) : PanelState :=
  { st with isLoading := false }

/-- `handleOpenToolMessage` (lines 787-789): the explicit user "open
tool" action — `setActiveOverlay(toolResponse)`. -/
def handleOpenToolMessage (st : PanelState) (ref : ToolResponseRef) : PanelState :=
  { st with activeOverlay := some ref }

/-! ## Current-context lookup (ToolPanel.tsx lines 444-462) -/

/-- Result shape of `getCurrentContext`. -/
structure CurrentContext where
  chapterName : String
  sectionName : String
  chapterId : Option String
  sectionId : Option String
deriving DecidableEq, Repr

/-- The empty context returned when nothing matches. -/
def emptyContext : CurrentContext :=
  ⟨"", "", none, none⟩

/-- The inner loop of `getCurrentContext` over one chapter: scan its
sections (when non-null) for the first with `section.page ===
currentPage`. -/
def findInChapter (c : Chapter) (currentPage : Int) : Option CurrentContext :=
  match c.sections with
  | some secs =>
    (secs.find? (fun s => s.page == currentPage)).map
      (fun s => ⟨c.title, s.title, some c.chapter_id, some s.section_id⟩)
  | none => none

/-- `getCurrentContext` (lines 444-462): without TOC data return the
empty context; otherwise return the first exact page match across the
nested chapter/section loops, or the empty context. -/
def getCurrentContext (tocData : Option TOC) (currentPage : Int) : CurrentContext :=
  match tocData with
  | none => emptyContext
  | some t =>
    (t.chapters.findSome? (fun c => findInChapter c currentPage)).getD emptyContext

/-! ## Voice recording (ToolPanel.tsx lines 465-515) -/

/-- Outcome of the environment/permission interaction in
`startRecording`: `navigator.mediaDevices` missing (unsupported), the
`getUserMedia` promise rejecting (permission denied), or success. -/
inductive CaptureResult where
  | unsupported : CaptureResult
  | permissionDenied : CaptureResult
  | granted : CaptureResult
deriving DecidableEq, Repr

/-- The recording-related ToolPanel state: the `isRecording` flag,
`recordingTime`, whether the 1-second interval timer is installed
(`recordingTimerRef`), and the compose box (`inputValue`). -/
structure RecordingState where
  isRecording : Bool
  recordingTime : Int
  timerActive : Bool
  inputValue : String
deriving DecidableEq, Repr

/-- `startRecording` (lines 465-515) as a state transformer, paired with
whether an error toast was raised.  Unsupported environment: error toast
and early return (no state change).  `getUserMedia` rejection lands in
the `catch`: error toast, no state change.  Success: `setIsRecording
(true)`, `setRecordingTime(0)`, the interval timer is installed, and the
compose box is untouched. -/
def startRecording (st : RecordingState) (cap : CaptureResult) :
    RecordingState × Bool :=
  match cap with
  | CaptureResult.unsupported => (st, true)
  | CaptureResult.permissionDenied => (st, true)
  | CaptureResult.granted =>
    ({ st with isRecording := true, recordingTime := 0, timerActive := true }, false)

/-! ## Concrete fixtures for scenarios, witnesses and counterexamples -/

/-- The table of contents of the spec's §8 scenario: chapter "Ch1" with
sections ("1.1", page 5) and ("1.2", page 11). -/
def tocCh1 : TOC :=
  ⟨"book-1",
   [⟨"Ch1-id", "1", "Ch1",
     some [⟨"1.1-id", "1.1", 5⟩, ⟨"1.2-id", "1.2", 11⟩]⟩]⟩

/-- A chapter whose `sections` field is `null`. -/
def chapterNoSections : Chapter := ⟨"ch-3", "3", "Appendix", none⟩

/-- A chapter with exactly one section whose title duplicates the
chapter's title. -/
def chapterOneDup : Chapter :=
  ⟨"ch-4", "4", "Summary", some [⟨"sec-4", "Summary", 90⟩]⟩

/-- A ToolPanel state with the pending flag clear. -/
def panelStateIdle : PanelState := ⟨[], "", false, none, none⟩

/-- A mock response carrying a tool artifact. -/
def respWithTool : Response :=
  ⟨"Generated a diagram.", some "diagram", some "tr-1",
   some (ToolContent.items ["graph TD"])⟩

/-- A recording state at `Idle` with some text in the compose box. -/
def recStateIdle : RecordingState := ⟨false, 0, false, "notes"⟩

/-! ## Claim C1 — navigation -/

/-- `runNavigations` returns the last call's page: `handlePageChange`
ignores the previous position. -/
theorem runNavigations_last (last : Int) (calls : List Int) :
    calls.getLast? = some last → ∀ init, runNavigations init calls = last := by
  induction calls with
  | nil => intro h init; cases h
  | cons x xs ih =>
    intro h init
    cases xs with
    | nil =>
      simp [List.getLast?] at h
      simp [runNavigations, List.foldl, handlePageChange, h]
    | cons y ys =>
      rw [List.getLast?_cons_cons] at h
      have hx := ih h x
      simpa [runNavigations, List.foldl, handlePageChange] using hx

/-- Claim C1, counterexample: `handlePageChange` performs no clamping.
With no table of contents `totalPages` is 100, yet navigating to page 0
stores page 0, not `clamp 1 100 0 = 1`. -/
theorem C1_counterexample :
    totalPages none = JsNumber.int 100 ∧
    handlePageChange 1 0 = 0 ∧
    clamp 1 100 0 = 1 ∧
    handlePageChange 1 0 ≠ clamp 1 100 0 := by
  refine ⟨rfl, rfl, by decide, by decide⟩

/-- Claim C1 (amended): every call to the navigation entry point
succeeds and the Position Model's page afterwards equals `p` exactly —
no clamping is applied; consequently, for every sequence of calls the
final page equals the last call's `p` (whether or not the pages lie in
`[1, totalPages]`). -/
theorem C1_navigation (st p init last : Int) (calls : List Int)
    (h : calls.getLast? = some last) :
    handlePageChange st p = p ∧ runNavigations init calls = last :=
  ⟨rfl, runNavigations_last last calls h init⟩

/-- Claim C1 witness: navigating through pages 3, 250, 2 ends at page 2. -/
theorem C1_navigation_witness :
    handlePageChange 1 7 = 7 ∧ runNavigations 1 [3, 250, 2] = 2 :=
  C1_navigation 1 7 1 2 [3, 250, 2] rfl

/-! ## Claim C2 — send-message suppression and append protocol -/

/-- Claim C2, counterexample: with the pending flag false and the
non-empty content `" "`, the send call appends no message (the code
tests `content.trim()`, not emptiness). -/
theorem C2_counterexample :
    panelStateIdle.isLoading = false ∧ (" " : String) ≠ "" ∧
    (handleSendMessageStart panelStateIdle (some " ") false none "u1").1.messages
      = panelStateIdle.messages :=
  ⟨rfl, by decide, by decide⟩

/-- Claim C2 (amended): while the pending flag is true a send call
leaves the message list unchanged; when the flag is false and the
resolved content is non-empty *after trimming whitespace*, the call
appends exactly one user message immediately and sets the pending flag,
and the completion appends exactly one assistant message and clears the
flag. -/
theorem C2_send_protocol (st : PanelState) (mc : Option String) (auto : Bool)
    (hov : Option HighlightedText) (uid aid model : String) (resp : Response) :
    (st.isLoading = true →
      (handleSendMessageStart st mc auto hov uid).1.messages = st.messages) ∧
    (jsTrim (jsOrString mc st.inputValue) ≠ "" → st.isLoading = false →
      ∃ um : Message,
        um.sender = Sender.user ∧
        um.content = jsOrString mc st.inputValue ∧
        (handleSendMessageStart st mc auto hov uid).1.messages
          = st.messages ++ [um] ∧
        (handleSendMessageStart st mc auto hov uid).1.isLoading = true ∧
        ∃ am : Message,
          am.sender = Sender.ai ∧
          (handleSendMessageComplete (handleSendMessageStart st mc auto hov uid).1
              resp aid model).messages = st.messages ++ [um, am] ∧
          (handleSendMessageComplete (handleSendMessageStart st mc auto hov uid).1
              resp aid model).isLoading = false) := by
  constructor
  · intro h
    simp [handleSendMessageStart, h]
  · intro hc hl
    have hcond : ¬ (jsTrim (jsOrString mc st.inputValue) = "" ∨ st.isLoading = true) := by
      rintro (h | h)
      · exact hc h
      · rw [hl] at h; cases h
    have hstart : handleSendMessageStart st mc auto hov uid =
        ({ st with
            messages := st.messages ++
              [⟨uid, jsOrString mc st.inputValue, Sender.user, none, none, none,
                jsOrOption hov st.contextText⟩],
            inputValue := if !auto then "" else st.inputValue,
            contextText := if hov.isNone then none else st.contextText,
            isLoading := true }, true) := by
      simp only [handleSendMessageStart]
      rw [if_neg hcond]
    refine ⟨⟨uid, jsOrString mc st.inputValue, Sender.user, none, none, none,
        jsOrOption hov st.contextText⟩,
      rfl, rfl, ?_, ?_,
      ⟨aid, resp.content, Sender.ai, some model, resp.tool_type,
        resp.tool_response.map (fun c => ⟨resp.tool_type, c, resp.tool_response_id⟩),
        none⟩, rfl, ?_, ?_⟩
    · rw [hstart]
    · rw [hstart]
    · rw [hstart]
      simp [handleSendMessageComplete]
    · rw [hstart]
      simp [handleSendMessageComplete]

/-- Claim C2 witness: sending "hello" from the idle panel appends one
user message then one assistant message and clears the flag. -/
theorem C2_send_protocol_witness :
    ∃ um : Message,
      um.sender = Sender.user ∧
      um.content = jsOrString (some "hello") panelStateIdle.inputValue ∧
      (handleSendMessageStart panelStateIdle (some "hello") false none "u1").1.messages
        = panelStateIdle.messages ++ [um] ∧
      (handleSendMessageStart panelStateIdle (some "hello") false none "u1").1.isLoading
        = true ∧
      ∃ am : Message,
        am.sender = Sender.ai ∧
        (handleSendMessageComplete
            (handleSendMessageStart panelStateIdle (some "hello") false none "u1").1
            respWithTool "a1" "m1").messages = panelStateIdle.messages ++ [um, am] ∧
        (handleSendMessageComplete
            (handleSendMessageStart panelStateIdle (some "hello") false none "u1").1
            respWithTool "a1" "m1").isLoading = false :=
  (C2_send_protocol panelStateIdle (some "hello") false none "u1" "a1" "m1"
    respWithTool).2 (by decide) rfl

/-! ## Claim C3 — drag-resize clamp -/

/-- The clamp never exceeds its upper bound provided the bounds are
ordered. -/
theorem clampQ_le_hi (lo hi x : ℚ) (h : lo ≤ hi) : clampQ lo hi x ≤ hi :=
  max_le h (min_le_left _ _)

/-- Claim C3, counterexample: for container width 400 with the document
visible, `maxWidth = 240 < minWidth = 280`, and the recomputed width is
280, exceeding `maxWidth`. -/
theorem C3_counterexample :
    resizeMaxWidth false 400 = 240 ∧
    handleMouseMove false 400 0 = 280 ∧
    ¬ handleMouseMove false 400 0 ≤ resizeMaxWidth false 400 := by
  refine ⟨?_, ?_, ?_⟩
  · norm_num [resizeMaxWidth]
  · norm_num [handleMouseMove, min_def, max_def]
  · norm_num [handleMouseMove, resizeMaxWidth, min_def, max_def]

/-- Claim C3 (amended): every pointer-move recomputes the tool-panel
width as `clamp(containerWidth - pointerX - 4, 280, maxWidth)` with
`maxWidth` = 60% of container width when the document pane is visible
and `containerWidth - 100` when hidden; and whenever `maxWidth ≥ 280`
(in particular for all container widths where the two bounds are
ordered) the result never exceeds `maxWidth`. -/
theorem C3_resize_clamp (hidden : Bool) (cw mx : ℚ)
    (h : 280 ≤ resizeMaxWidth hidden cw) :
    handleMouseMove hidden cw mx
      = clampQ 280 (resizeMaxWidth hidden cw) (cw - mx - 4) ∧
    handleMouseMove hidden cw mx ≤ resizeMaxWidth hidden cw :=
  ⟨rfl, clampQ_le_hi 280 (resizeMaxWidth hidden cw) (cw - mx - 4) h⟩

/-- Claim C3 witness: container width 1000, pointer at 0, document
visible: the width is clamped to 600 = maxWidth. -/
theorem C3_resize_clamp_witness :
    handleMouseMove false 1000 0
      = clampQ 280 (resizeMaxWidth false 1000) (1000 - 0 - 4) ∧
    handleMouseMove false 1000 0 ≤ resizeMaxWidth false 1000 :=
  C3_resize_clamp false 1000 0 (by norm_num [resizeMaxWidth])

/-! ## Claim C4 — contents pane width -/

/-- Claim C4: in non-narrow layout the contents pane width is 0 whenever
the table of contents is absent/empty or the document is hidden, for all
values of the collapsed flag; otherwise it is 48 when collapsed and 240
when expanded. -/
theorem C4_toc_width (toc : Option TOC) (hidden collapsed : Bool) :
    ((hasTOC toc = false ∨ hidden = true) → tocWidth toc hidden collapsed = 0) ∧
    (hasTOC toc = true → hidden = false →
      tocWidth toc hidden collapsed = if collapsed then 48 else 240) := by
  constructor
  · rintro (h | h) <;> simp [tocWidth, h]
  · intro h1 h2
    simp [tocWidth, h1, h2]

/-- Claim C4 witness: no TOC gives width 0; the scenario TOC, document
visible, collapsed, gives width 48. -/
theorem C4_toc_width_witness :
    tocWidth none true true = 0 ∧ tocWidth (some tocCh1) false true = 48 :=
  ⟨(C4_toc_width none true true).1 (Or.inl rfl),
   (C4_toc_width (some tocCh1) false true).2 rfl rfl⟩

/-! ## Claim C5 — missing table of contents -/

/-- Claim C5: when no table of contents is supplied, the contents pane
is not rendered (and its width is 0), and `totalPages` is the fixed
default 100, regardless of the hidden/collapsed flags. -/
theorem C5_no_toc (hidden collapsed : Bool) :
    tocPaneRendered none hidden = false ∧
    tocWidth none hidden collapsed = 0 ∧
    totalPages none = JsNumber.int 100 :=
  ⟨rfl, rfl, rfl⟩

/-! ## Claim C6 — directly clickable chapters -/

/-- Claim C6, counterexample: a chapter whose `sections` field is `null`
is directly clickable (no expand arrow), but clicking it emits no
navigation at all — there is no first section to navigate to and
`chapterPage` is `null`. -/
theorem C6_counterexample :
    directlyClickable chapterNoSections = true ∧
    handleChapterClick chapterNoSections = none :=
  ⟨rfl, rfl⟩

/-- Claim C6 (amended): a directly clickable chapter is rendered without
an expand arrow; when it has at least one section and that section's
page is nonzero (the `if (chapterPage)` truthiness guard), clicking it
emits a navigation to the first section's page carrying that section's
id and the chapter's id; a chapter with `null` sections emits nothing
when clicked. -/
theorem C6_clickable_chapter (c : Chapter) :
    (directlyClickable c = true → hasExpandArrow c = false) ∧
    (∀ (s : Section) (rest : List Section),
      directlyClickable c = true → c.sections = some (s :: rest) → s.page ≠ 0 →
      handleChapterClick c = some ⟨s.page, some s.section_id, some c.chapter_id⟩) ∧
    (c.sections = none → handleChapterClick c = none) := by
  refine ⟨?_, ?_, ?_⟩
  · intro h
    simp only [directlyClickable, Bool.not_eq_true'] at h
    simpa [hasExpandArrow] using h
  · intro s rest _ hsec hp
    simp [handleChapterClick, chapterPage, hsec, hp]
  · intro hsec
    simp [handleChapterClick, chapterPage, hsec]

/-- Claim C6 witness: the chapter whose single section duplicates its
title has no expand arrow, and clicking it navigates to page 90 with the
section's and chapter's ids. -/
theorem C6_clickable_chapter_witness :
    hasExpandArrow chapterOneDup = false ∧
    handleChapterClick chapterOneDup = some ⟨90, some "sec-4", some "ch-4"⟩ :=
  ⟨(C6_clickable_chapter chapterOneDup).1 (by decide),
   (C6_clickable_chapter chapterOneDup).2.1 ⟨"sec-4", "Summary", 90⟩ []
     (by decide) rfl (by decide)⟩

/-! ## Claim C7 — exact-match current-section lookup -/

/-- Claim C7: the current chapter/section determination is exact page
equality.  Whenever the lookup returns a section id, some section of the
table of contents has exactly the current page and that id/title; on the
spec's scenario TOC, page 11 resolves to section "1.2", and any page
other than 5 and 11 resolves to no section. -/
theorem C7_exact_match :
    (∀ (t : TOC) (p : Int) (ctx : CurrentContext),
      getCurrentContext (some t) p = ctx → ctx.sectionId ≠ none →
      ∃ c ∈ t.chapters, ∃ secs, c.sections = some secs ∧
        ∃ s ∈ secs, s.page = p ∧ ctx.sectionId = some s.section_id ∧
          ctx.sectionName = s.title) ∧
    (getCurrentContext (some tocCh1) 11).sectionName = "1.2" ∧
    (getCurrentContext (some tocCh1) 11).sectionId = some "1.2-id" ∧
    (∀ p : Int, p ≠ 5 → p ≠ 11 → (getCurrentContext (some tocCh1) p).sectionId = none) := by
  refine ⟨?_, rfl, rfl, ?_⟩
  · intro t p ctx hctx hsid
    cases hfind : t.chapters.findSome? (fun c => findInChapter c p) with
    | none =>
      rw [getCurrentContext, hfind] at hctx
      rw [← hctx] at hsid
      exact absurd rfl hsid
    | some ctx' =>
      rw [getCurrentContext, hfind] at hctx
      obtain ⟨c, hcmem, hfc⟩ := List.exists_of_findSome?_eq_some hfind
      cases hsec : c.sections with
      | none => simp [findInChapter, hsec] at hfc
      | some secs =>
        rw [findInChapter, hsec] at hfc
        obtain ⟨s, hfindS, hmap⟩ := Option.map_eq_some'.mp hfc
        have hpage := List.find?_some hfindS
        have hmem : s ∈ secs := List.mem_of_find?_eq_some hfindS
        refine ⟨c, hcmem, secs, hsec, s, hmem, by simpa using hpage, ?_, ?_⟩
        · rw [← hctx, ← hmap]
          rfl
        · rw [← hctx, ← hmap]
          rfl
  · intro p h5 h11
    have e1 : (((5 : Int) == p)) = false := beq_eq_false_iff_ne.mpr (Ne.symm h5)
    have e2 : (((11 : Int) == p)) = false := beq_eq_false_iff_ne.mpr (Ne.symm h11)
    simp [getCurrentContext, tocCh1, findInChapter, List.findSome?, List.find?,
      e1, e2, emptyContext]

/-- Claim C7 witness: on the scenario TOC at page 11, the lookup's
result is witnessed by section "1.2" itself; page 7 returns no
section. -/
theorem C7_exact_match_witness :
    (∃ c ∈ tocCh1.chapters, ∃ secs, c.sections = some secs ∧
      ∃ s ∈ secs, s.page = 11 ∧
        (getCurrentContext (some tocCh1) 11).sectionId = some s.section_id ∧
        (getCurrentContext (some tocCh1) 11).sectionName = s.title) ∧
    (getCurrentContext (some tocCh1) 7).sectionId = none :=
  ⟨C7_exact_match.1 tocCh1 11 (getCurrentContext (some tocCh1) 11) rfl (by decide),
   C7_exact_match.2.2.2 7 (by decide) (by decide)⟩

/-! ## Claim C8 — capture-start failure leaves state at Idle -/

/-- Claim C8: if starting an audio capture session fails (unsupported
environment or permission denied), an error is reported and the
recording state stays `Idle`: `isRecording` stays false, the
elapsed-time timer is not started, and the compose box is unchanged. -/
theorem C8_capture_failure (st : RecordingState) (cap : CaptureResult)
    (hidle : st.isRecording = false)
    (hfail : cap = CaptureResult.unsupported ∨ cap = CaptureResult.permissionDenied) :
    (startRecording st cap).2 = true ∧
    (startRecording st cap).1.isRecording = false ∧
    (startRecording st cap).1.timerActive = st.timerActive ∧
    (startRecording st cap).1.inputValue = st.inputValue := by
  rcases hfail with h | h <;> subst h <;>
    exact ⟨rfl, hidle, rfl, rfl⟩

/-- Claim C8 witness: a denied permission on the idle state reports an
error and changes nothing. -/
theorem C8_capture_failure_witness :
    (startRecording recStateIdle CaptureResult.permissionDenied).2 = true ∧
    (startRecording recStateIdle CaptureResult.permissionDenied).1.isRecording = false ∧
    (startRecording recStateIdle CaptureResult.permissionDenied).1.timerActive
      = recStateIdle.timerActive ∧
    (startRecording recStateIdle CaptureResult.permissionDenied).1.inputValue
      = recStateIdle.inputValue :=
  C8_capture_failure recStateIdle CaptureResult.permissionDenied rfl (Or.inr rfl)

/-! ## Claim C9 — completion never auto-opens the tool overlay -/

/-- Claim C9: neither the synchronous send prefix nor the completion
handler touches the active-overlay state; when the response carries a
tool artifact the appended assistant message stores a reference to it
(type, content, optional id); the overlay changes only through the
explicit open action. -/
theorem C9_no_auto_open (st : PanelState) (resp : Response) (aid model : String)
    (mc : Option String) (auto : Bool) (hov : Option HighlightedText) (uid : String) :
    (handleSendMessageComplete st resp aid model).activeOverlay = st.activeOverlay ∧
    (handleSendMessageStart st mc auto hov uid).1.activeOverlay = st.activeOverlay ∧
    (∀ c : ToolContent, resp.tool_response = some c →
      ∃ am : Message,
        (handleSendMessageComplete st resp aid model).messages = st.messages ++ [am] ∧
        am.sender = Sender.ai ∧
        am.toolResponse = some ⟨resp.tool_type, c, resp.tool_response_id⟩) ∧
    (∀ ref : ToolResponseRef,
      (handleOpenToolMessage st ref).activeOverlay = some ref) := by
  refine ⟨rfl, ?_, ?_, fun ref => rfl⟩
  · simp only [handleSendMessageStart]
    split <;> rfl
  · intro c hc
    exact ⟨⟨aid, resp.content, Sender.ai, some model, resp.tool_type,
      some ⟨resp.tool_type, c, resp.tool_response_id⟩, none⟩,
      by simp [handleSendMessageComplete, hc], rfl, rfl⟩

/-- Claim C9 witness: completing a send with a tool-carrying response on
the idle panel leaves the overlay closed and stores the reference on the
assistant message. -/
theorem C9_no_auto_open_witness :
    (handleSendMessageComplete panelStateIdle respWithTool "a1" "m1").activeOverlay
      = panelStateIdle.activeOverlay ∧
    ∃ am : Message,
      (handleSendMessageComplete panelStateIdle respWithTool "a1" "m1").messages
        = panelStateIdle.messages ++ [am] ∧
      am.sender = Sender.ai ∧
      am.toolResponse = some ⟨respWithTool.tool_type, ToolContent.items ["graph TD"],
        respWithTool.tool_response_id⟩ :=
  ⟨(C9_no_auto_open panelStateIdle respWithTool "a1" "m1" none false none "u1").1,
   (C9_no_auto_open panelStateIdle respWithTool "a1" "m1" none false none "u1").2.2.1
     (ToolContent.items ["graph TD"]) rfl⟩

/-! ## Claim C10 — totalPages derivation -/

/-- `jsMathMax` dominates every member of its argument list. -/
theorem jsMathMax_ge (l : List Int) (p : Int) (hp : p ∈ l) :
    ∃ m, jsMathMax l = JsNumber.int m ∧ p ≤ m := by
  induction l with
  | nil => cases hp
  | cons x xs ih =>
    cases hx : jsMathMax xs with
    | negInfinity =>
      rcases List.mem_cons.mp hp with h | h
      · exact ⟨x, by simp [jsMathMax, hx], le_of_eq h⟩
      · obtain ⟨m, hm, -⟩ := ih h
        rw [hx] at hm
        cases hm
    | int m =>
      rcases List.mem_cons.mp hp with h | h
      · exact ⟨max x m, by simp [jsMathMax, hx], h ▸ le_max_left x m⟩
      · obtain ⟨m', hm', hpm'⟩ := ih h
        rw [hx] at hm'
        injection hm' with he
        subst he
        exact ⟨max x m, by simp [jsMathMax, hx], le_trans hpm' (le_max_right x m)⟩

/-- `jsMathMax` of a non-empty list is one of its members. -/
theorem jsMathMax_mem (l : List Int) (h : l ≠ []) :
    ∃ m, m ∈ l ∧ jsMathMax l = JsNumber.int m := by
  induction l with
  | nil => exact absurd rfl h
  | cons x xs ih =>
    cases hx : jsMathMax xs with
    | negInfinity => exact ⟨x, List.mem_cons_self x xs, by simp [jsMathMax, hx]⟩
    | int m =>
      have hxs : xs ≠ [] := by
        intro he
        rw [he] at hx
        cases hx
      obtain ⟨m', hmem, hm'⟩ := ih hxs
      rw [hx] at hm'
      injection hm' with he
      subst he
      rcases max_choice x m with hmax | hmax
      · exact ⟨max x m, by rw [hmax]; exact List.mem_cons_self x xs,
          by simp [jsMathMax, hx]⟩
      · exact ⟨max x m, by rw [hmax]; exact List.mem_cons_of_mem x hmem,
          by simp [jsMathMax, hx]⟩

/-- Claim C10: with a table of contents present, `totalPages` is the
maximum of the collected section pages (a `null` sections field
contributes the single value 1); an empty chapters list yields
`-Infinity`; the fallback 100 applies only when the `toc` field is
absent, not when it is present but empty. -/
theorem C10_total_pages :
    (∀ t : TOC, ∀ p ∈ tocPages t,
      ∃ m, totalPages (some t) = JsNumber.int m ∧ p ≤ m) ∧
    (∀ t : TOC, tocPages t ≠ [] →
      ∃ m ∈ tocPages t, totalPages (some t) = JsNumber.int m) ∧
    (∀ c : Chapter, c.sections = none → chapterPages c = [1]) ∧
    (∀ t : TOC, t.chapters = [] →
      totalPages (some t) = JsNumber.negInfinity ∧
      totalPages (some t) ≠ JsNumber.int 100) ∧
    totalPages none = JsNumber.int 100 := by
  refine ⟨?_, ?_, ?_, ?_, rfl⟩
  · intro t p hp
    exact jsMathMax_ge (tocPages t) p hp
  · intro t ht
    obtain ⟨m, hmem, hm⟩ := jsMathMax_mem (tocPages t) ht
    exact ⟨m, hmem, hm⟩
  · intro c hc
    simp [chapterPages, hc]
  · intro t ht
    have hpages : tocPages t = [] := by
      simp [tocPages, ht]
    constructor
    · simp [totalPages, hpages, jsMathMax]
    · simp [totalPages, hpages, jsMathMax]

/-- Claim C10 witness: on the scenario TOC, page 5 is dominated by the
maximum; the empty-chapters TOC yields `-Infinity`, not 100. -/
theorem C10_total_pages_witness :
    (∃ m, totalPages (some tocCh1) = JsNumber.int m ∧ 5 ≤ m) ∧
    (totalPages (some ⟨"book-e", []⟩) = JsNumber.negInfinity ∧
      totalPages (some ⟨"book-e", []⟩) ≠ JsNumber.int 100) :=
  ⟨C10_total_pages.1 tocCh1 5 (by decide),
   C10_total_pages.2.2.2.1 ⟨"book-e", []⟩ rfl⟩

end StudyMode
